import Mathlib

/-!
Verification of the yahoofinance-mcp server (`src/index.ts`) against its
natural-language specification.

The TypeScript source is shallowly embedded: JavaScript numbers that can be
`undefined`, `null` or `NaN` are modelled by the inductive type `JSNum`;
the process-wide rate-limit counters become an explicit `RateState` threaded
through the pipeline functions; `fetch` is abstracted as a settled
`HttpResponse` (or a per-index outcome function for the batch pipeline)
handed to the pipeline, since the claims are about what the code does with
a settled response, not about the network.  Wall-clock `Date.now()` becomes
an explicit `now : Int` argument (milliseconds).  Locale-dependent date
rendering (`new Date(t*1000).toLocaleDateString()`) is abstracted as an
arbitrary `dateFn : Int → String` parameter; no claim depends on its value.
-/

/- The Batteries rational-number operations are `@[irreducible]`, which
blocks `decide`-style evaluation of concrete report strings; restore the
default reducibility for this file so concrete payloads evaluate. -/
attribute [local semireducible] Rat.mul Rat.add Rat.sub Rat.inv Rat.ofScientific

/-! ### JavaScript number model -/

/-- A JavaScript numeric-field value as it occurs in the upstream JSON
payloads: a finite number, `NaN`, `undefined` (absent property / missing
array element) or JSON `null`.  Finite doubles are modelled by `ℚ`. -/
inductive JSNum where
  | num (q : ℚ)
  | nan
  | jsUndefined
  | null
deriving DecidableEq, Repr

/-- JavaScript numeric coercion used by the arithmetic operators:
`null` coerces to `0`; `undefined` and `NaN` coerce to `NaN` (here `none`). -/
def JSNum.toNumber : JSNum → Option ℚ
  | .num q => some q
  | .null => some 0
  | .nan => none
  | .jsUndefined => none

/-- JavaScript subtraction `a - b` on (possibly absent) numeric values. -/
def jsSub (a b : JSNum) : JSNum :=
  match a.toNumber, b.toNumber with
  | some x, some y => .num (x - y)
  | _, _ => .nan

/-- JavaScript multiplication `a * b` on (possibly absent) numeric values. -/
def jsMul (a b : JSNum) : JSNum :=
  match a.toNumber, b.toNumber with
  | some x, some y => .num (x * y)
  | _, _ => .nan

/-- JavaScript division `a / b`.  Division by exactly `0` yields an infinity
or `NaN` in JavaScript; no claim exercises that case, and it is conflated
with `nan` here. -/
def jsDiv (a b : JSNum) : JSNum :=
  match a.toNumber, b.toNumber with
  | some x, some y => if y = 0 then .nan else .num (x / y)
  | _, _ => .nan

/-- JavaScript truthiness of a numeric value (`0`, `NaN`, `undefined` and
`null` are falsy). -/
def jsTruthyNum : JSNum → Bool
  | .num q => q != 0
  | _ => false

/-- JavaScript `a || b` on numeric values. -/
def jsOrNum (a b : JSNum) : JSNum :=
  if jsTruthyNum a then a else b

/-- JavaScript `a || b` on optional strings (`none` is `undefined`,
the empty string is falsy). -/
def jsOrStr (a b : Option String) : Option String :=
  match a with
  | some s => if s = "" then b else some s
  | none => b

/-! ### Number rendering (`toFixed`, `toLocaleString`) -/

/-- Floor of a rational as an integer (`q.den` is positive). -/
def ratFloor (q : ℚ) : Int :=
  q.num.fdiv q.den

/-- Round half away from zero, as JavaScript `toFixed` /
`toLocaleString` do. -/
def roundHalfAway (q : ℚ) : Int :=
  if 0 ≤ q then ratFloor (q + 1/2) else -ratFloor (-q + 1/2)

/-- Left-pad a digit string with zeros to length `n`. -/
def padZeros (s : String) (n : Nat) : String :=
  String.mk (List.replicate (n - s.length) '0') ++ s

/-- `Number.prototype.toFixed(d)` for a finite value. -/
def qToFixed (q : ℚ) (d : Nat) : String :=
  let scaled : Int := roundHalfAway (q * (10 : ℚ) ^ d)
  let sign := if scaled < 0 then "-" else ""
  let n := scaled.natAbs
  if d = 0 then sign ++ toString n
  else sign ++ toString (n / 10 ^ d) ++ "." ++ padZeros (toString (n % 10 ^ d)) d

/-- Insert a comma after every third digit of a reversed digit list. -/
def group3 : List Char → List Char
  | a :: b :: c :: d :: rest => a :: b :: c :: ',' :: group3 (d :: rest)
  | l => l

/-- Grouped-thousands rendering of a natural number, e.g. `54364985 ↦
"54,364,985"`. -/
def groupThousands (n : Nat) : String :=
  String.mk (group3 (toString n).toList.reverse).reverse

/-- Drop trailing zero characters of a digit string. -/
def trimTrailingZeros (s : String) : String :=
  String.mk (((s.toList.reverse).dropWhile (· = '0')).reverse)

/-- `Number.prototype.toLocaleString()` (default en-US options) for a finite
value: grouped thousands, at most three fraction digits, rounded half away
from zero. -/
def qToLocaleString (q : ℚ) : String :=
  let scaled : Int := roundHalfAway (q * 1000)
  let sign := if scaled < 0 then "-" else ""
  let n := scaled.natAbs
  let frac := n % 1000
  sign ++ groupThousands (n / 1000) ++
    (if frac = 0 then "" else "." ++ trimTrailingZeros (padZeros (toString frac) 3))

/-- `v.toFixed(d)` on a JavaScript value.  `NaN.toFixed(d)` is `"NaN"`;
the `jsUndefined`/`null` cases would throw in JavaScript and are unreachable
behind the guards of the source. -/
def jsToFixed (v : JSNum) (d : Nat) : String :=
  match v with
  | .num q => qToFixed q d
  | _ => "NaN"

/-- `v.toLocaleString()` on a JavaScript value.  `NaN.toLocaleString()` is
`"NaN"`; the `jsUndefined`/`null` cases would throw and are unreachable behind
the guards of the source. -/
def jsToLocaleString (v : JSNum) : String :=
  match v with
  | .num q => qToLocaleString q
  | _ => "NaN"

/-! ### Rate limiter (`RATE_LIMIT`, `requestCount`, `checkRateLimit`) -/

/-- The `RATE_LIMIT` constant of the source. -/
structure RateLimitCfg where
  perMinute : Nat
  perDay : Nat
deriving DecidableEq, Repr

def RATE_LIMIT : RateLimitCfg := { perMinute := 20, perDay := 500 }

/-- The process-wide `requestCount` state: call counts for the current
minute and day windows and the window-start timestamps (ms). -/
structure RateState where
  minute : Nat
  day : Nat
  lastMinuteReset : Int
  lastDayReset : Int
deriving DecidableEq, Repr

/-- Initial state at process start time `t0` (`Date.now()` twice). -/
def initRateState (t0 : Int) : RateState :=
  { minute := 0, day := 0, lastMinuteReset := t0, lastDayReset := t0 }

/-- `checkRateLimit()` of the source, with `Date.now()` passed explicitly
and the mutated global returned.  On rate-limit failure the state still
carries any window reset that happened before the throw. -/
def checkRateLimit (now : Int) (s : RateState) : Except String Unit × RateState :=
  let s1 := if now - s.lastMinuteReset > 60000 then
      { s with minute := 0, lastMinuteReset := now } else s
  let s2 := if now - s1.lastDayReset > 86400000 then
      { s1 with day := 0, lastDayReset := now } else s1
  if RATE_LIMIT.perMinute ≤ s2.minute ∨ RATE_LIMIT.perDay ≤ s2.day then
    (Except.error "Rate limit exceeded. Please try again later.", s2)
  else
    (Except.ok (), { s2 with minute := s2.minute + 1, day := s2.day + 1 })

/-- Whether an `Except` result is a success. -/
def exceptOk {ε α : Type} : Except ε α → Bool
  | .ok _ => true
  | .error _ => false

/-- Run `checkRateLimit` once for each timestamp of `ts`, in order,
collecting the success flags and the final state. -/
def rateCalls : List Int → RateState → List Bool × RateState
  | [], s => ([], s)
  | t :: ts, s =>
    let r := checkRateLimit t s
    let rest := rateCalls ts r.2
    (exceptOk r.1 :: rest.1, rest.2)

/-! ### Retrying fetch (`fetchWithRetry`) -/

/-- Outcome of one transport attempt: a settled response with an HTTP
status, or a transport-level exception with a message. -/
inductive FetchOutcome where
  | resp (status : Nat)
  | err (msg : String)
deriving DecidableEq, Repr

/-- The `while (retries < maxRetries)` loop of `fetchWithRetry`, with the
transport abstracted as a function from the attempt index to its outcome.
`fuel = maxRetries - retries` attempts remain; the accumulated backoff
waits (ms) are returned alongside the result. -/
def fetchLoop (transport : Nat → FetchOutcome) :
    Nat → Nat → Option String → List Nat → Except String Nat × List Nat
  | 0, _, lastError, waits =>
    (Except.error (lastError.getD "Maximum retries exceeded"), waits)
  | fuel + 1, retries, lastError, waits =>
    match transport retries with
    | .resp 429 =>
      fetchLoop transport fuel (retries + 1) lastError (waits ++ [2 ^ retries * 1000])
    | .resp s => (Except.ok s, waits)
    | .err m =>
      fetchLoop transport fuel (retries + 1) (some m) (waits ++ [2 ^ retries * 1000])

/-- `fetchWithRetry(url, options, maxRetries)`: the result is the returned
response status or the thrown error message, paired with the list of
backoff waits (ms) that occurred. -/
def fetchWithRetry (transport : Nat → FetchOutcome) (maxRetries : Nat := 3) :
    Except String Nat × List Nat :=
  fetchLoop transport maxRetries 0 none []

/-! ### HTTP response and chart payload model -/

/-- A settled HTTP response: status, status text, and the decoded
`data.chart?.result?.[0]` entry of the JSON body (`none` when absent).
`Response.ok` is status 200–299. -/
structure HttpResponse (β : Type) where
  status : Nat
  statusText : String
  body : Option β
deriving DecidableEq, Repr

/-- `Response.ok`: the status is in the 2xx range. -/
def respOk {β : Type} (r : HttpResponse β) : Bool :=
  200 ≤ r.status && r.status ≤ 299

/-- The `instrumentInfo` block read by `formatBasicQuote`. -/
structure InstrumentInfo where
  shortName : Option String
  longName : Option String
deriving DecidableEq, Repr

/-- The `result.meta` block of the chart payload, as read by the quote
pipeline.  Fields the source never reads are omitted. -/
structure ChartMeta where
  symbol : String
  shortName : Option String
  longName : Option String
  regularMarketPrice : JSNum
  chartPreviousClose : JSNum
  previousClose : JSNum
  regularMarketDayLow : JSNum
  regularMarketDayHigh : JSNum
  fiftyTwoWeekLow : JSNum
  fiftyTwoWeekHigh : JSNum
  regularMarketVolume : JSNum
  instrumentInfo : Option InstrumentInfo
deriving DecidableEq, Repr

/-- One entry of `result.indicators.quote`: the OHLCV arrays, each possibly
absent, with possibly-null elements. -/
structure QuoteSeries where
  open_ : Option (List JSNum)
  high : Option (List JSNum)
  low : Option (List JSNum)
  close : Option (List JSNum)
  volume : Option (List JSNum)
deriving DecidableEq, Repr

/-- The `result.indicators` block. -/
structure QuoteIndicators where
  quote : List QuoteSeries
deriving DecidableEq, Repr

/-- The `data.chart.result[0]` entry for the quote / market-data
pipelines. -/
structure QuoteChartResult where
  meta : Option ChartMeta
  indicators : Option QuoteIndicators
deriving DecidableEq, Repr

/-- `result.indicators?.quote?.[0]?.<field>?.[0]`: optional chaining that
yields `undefined` whenever any link is missing. -/
def seriesFirst (res : QuoteChartResult) (f : QuoteSeries → Option (List JSNum)) : JSNum :=
  match res.indicators with
  | none => .jsUndefined
  | some ind =>
    match ind.quote.head? with
    | none => .jsUndefined
    | some s =>
      match f s with
      | none => .jsUndefined
      | some l => l.headD .jsUndefined

/-- The `quoteData` object built by `fetchStockQuote` in its
`result.meta` branch. -/
structure QuoteData where
  symbol : String
  shortName : String
  regularMarketPrice : JSNum
  regularMarketChange : JSNum
  regularMarketChangePercent : JSNum
  regularMarketPreviousClose : JSNum
  regularMarketOpen : JSNum
  regularMarketDayLow : JSNum
  regularMarketDayHigh : JSNum
  fiftyTwoWeekLow : JSNum
  fiftyTwoWeekHigh : JSNum
  regularMarketVolume : JSNum
  averageDailyVolume3Month : JSNum
  marketCap : JSNum
  trailingPE : JSNum
  epsTrailingTwelveMonths : JSNum
  dividendYield : JSNum
deriving DecidableEq, Repr

/-- Construction of `quoteData` from `result.meta` (lines 236–254 of the
source).  `regularMarketChange` and `regularMarketChangePercent` are
computed unconditionally from `regularMarketPrice` and
`chartPreviousClose`; the five fields not available from the chart API are
literal `null`. -/
def mkQuoteData (m : ChartMeta) (res : QuoteChartResult) (symbol : String) : QuoteData :=
  { symbol := m.symbol
    shortName := (jsOrStr m.shortName m.longName).getD symbol
    regularMarketPrice := m.regularMarketPrice
    regularMarketChange := jsSub m.regularMarketPrice m.chartPreviousClose
    regularMarketChangePercent :=
      jsDiv (jsSub m.regularMarketPrice m.chartPreviousClose) m.chartPreviousClose
    regularMarketPreviousClose := m.chartPreviousClose
    regularMarketOpen := seriesFirst res (·.open_)
    regularMarketDayLow := jsOrNum m.regularMarketDayLow (seriesFirst res (·.low))
    regularMarketDayHigh := jsOrNum m.regularMarketDayHigh (seriesFirst res (·.high))
    fiftyTwoWeekLow := m.fiftyTwoWeekLow
    fiftyTwoWeekHigh := m.fiftyTwoWeekHigh
    regularMarketVolume := jsOrNum m.regularMarketVolume (seriesFirst res (·.volume))
    averageDailyVolume3Month := .null
    marketCap := .null
    trailingPE := .null
    epsTrailingTwelveMonths := .null
    dividendYield := .null }

/-- `formatNumber` of `formatStockQuote`: `'N/A'` exactly when the value is
`undefined` or `null`, otherwise `toLocaleString` (so `NaN` renders
`"NaN"`). -/
def formatNumber (v : JSNum) : String :=
  if v = .jsUndefined ∨ v = .null then "N/A" else jsToLocaleString v

/-- `formatPercent` of `formatStockQuote`: `'N/A'` exactly when the value
is `undefined` or `null`, otherwise `(v * 100).toFixed(2) + '%'`. -/
def formatPercent (v : JSNum) : String :=
  if v = .jsUndefined ∨ v = .null then "N/A"
  else jsToFixed (jsMul v (.num 100)) 2 ++ "%"

/-- The fourteen lines of the `formatStockQuote` report, in source order.
`quote.longName` is never set on `quoteData`, so the Name fallback chain
reduces to `shortName || 'N/A'`. -/
def quoteLines (q : QuoteData) : List String :=
  [ "Symbol: " ++ q.symbol,
    "Name: " ++ (if q.shortName = "" then "N/A" else q.shortName),
    "Price: $" ++ formatNumber q.regularMarketPrice,
    "Change: $" ++ formatNumber q.regularMarketChange ++ " (" ++
      formatPercent q.regularMarketChangePercent ++ ")",
    "Previous Close: $" ++ formatNumber q.regularMarketPreviousClose,
    "Open: $" ++ formatNumber q.regularMarketOpen,
    "Day Range: $" ++ formatNumber q.regularMarketDayLow ++ " - $" ++
      formatNumber q.regularMarketDayHigh,
    "52 Week Range: $" ++ formatNumber q.fiftyTwoWeekLow ++ " - $" ++
      formatNumber q.fiftyTwoWeekHigh,
    "Volume: " ++ formatNumber q.regularMarketVolume,
    "Avg. Volume: " ++ formatNumber q.averageDailyVolume3Month,
    "Market Cap: $" ++ formatNumber q.marketCap,
    "P/E Ratio: " ++ formatNumber q.trailingPE,
    "EPS: $" ++ formatNumber q.epsTrailingTwelveMonths,
    "Dividend Yield: " ++ formatPercent q.dividendYield ]

/-- `formatStockQuote`: the trimmed template literal, i.e. the fourteen
report lines joined by newlines. -/
def formatStockQuote (q : QuoteData) : String :=
  String.intercalate "\n" (quoteLines q)

/-- `formatBasicQuote(chartData, symbol)`: the degraded report used when
`result.meta` is falsy.  Since the call site guarantees `meta` is absent,
`chartData.meta || {}` reads every field as `undefined`; the embedding
still reads through the same accessors.  The surrounding `try`/`catch`
cannot fire in this total model. -/
def formatBasicQuote (res : QuoteChartResult) (symbol : String) : String :=
  let metaPrice := match res.meta with | some m => m.regularMarketPrice | none => .jsUndefined
  let metaPrev := match res.meta with | some m => m.previousClose | none => .jsUndefined
  let instInfo := match res.meta with | some m => m.instrumentInfo | none => none
  let name := (jsOrStr (instInfo.bind (·.shortName)) (instInfo.bind (·.longName))).getD symbol
  let change := jsSub metaPrice metaPrev
  let changePercent := jsMul (jsDiv change metaPrev) (.num 100)
  let priceStr := match metaPrice with
    | .jsUndefined => "N/A" | .null => "N/A" | v => jsToLocaleString v
  let changeStr := match change with
    | .jsUndefined => "N/A" | .null => "N/A" | v => jsToFixed v 2
  let changePctStr := match changePercent with
    | .jsUndefined => "N/A" | .null => "N/A" | v => jsToFixed v 2
  let prevStr := match metaPrev with
    | .jsUndefined => "N/A" | .null => "N/A" | v => jsToLocaleString v
  String.intercalate "\n"
    [ "Symbol: " ++ symbol,
      "Name: " ++ name,
      "Price: $" ++ priceStr,
      "Change: $" ++ changeStr ++ " (" ++ changePctStr ++ "%)",
      "Previous Close: $" ++ prevStr,
      "",
      "Note: Full quote data is unavailable. Showing limited information from chart data." ]

/-- The soft "unable to retrieve" text of the quote pipeline. -/
def unableQuoteMsg (symbol : String) : String :=
  "Unable to retrieve data for symbol: " ++ symbol ++
    ". The ticker symbol may be invalid or Yahoo Finance data may be temporarily unavailable."

/-- `fetchStockQuote(symbol)`: rate-limit check, then dispatch on the
settled response.  URL construction and the network are abstracted; `resp`
is the response `fetchWithRetry` settled with (it can never be a 429, since
`fetchWithRetry` retries those until it throws). -/
def fetchStockQuote (now : Int) (st : RateState) (symbol : String)
    (resp : HttpResponse QuoteChartResult) : Except String String × RateState :=
  match checkRateLimit now st with
  | (.error e, st') => (.error e, st')
  | (.ok _, st') =>
    if respOk resp then
      match resp.body with
      | some result =>
        match result.meta with
        | some m => (.ok (formatStockQuote (mkQuoteData m result symbol)), st')
        | none => (.ok (formatBasicQuote result symbol), st')
      | none => (.ok (unableQuoteMsg symbol), st')
    else (.ok (unableQuoteMsg symbol), st')

/-! ### Market-data pipeline -/

/-- The per-index record pushed into `indexResults` (lines 347–356). -/
structure IndexRecord where
  symbol : String
  shortName : String
  regularMarketPrice : JSNum
  regularMarketChange : JSNum
  regularMarketChangePercent : JSNum
  regularMarketPreviousClose : JSNum
  regularMarketDayHigh : JSNum
  regularMarketDayLow : JSNum
deriving DecidableEq, Repr

/-- Build the record for one index from `result.meta`. -/
def mkIndexRecord (indexSymbol : String) (m : ChartMeta) : IndexRecord :=
  { symbol := indexSymbol
    shortName := (jsOrStr m.shortName m.longName).getD indexSymbol
    regularMarketPrice := m.regularMarketPrice
    regularMarketChange := jsSub m.regularMarketPrice m.chartPreviousClose
    regularMarketChangePercent :=
      jsDiv (jsSub m.regularMarketPrice m.chartPreviousClose) m.chartPreviousClose
    regularMarketPreviousClose := m.chartPreviousClose
    regularMarketDayHigh := m.regularMarketDayHigh
    regularMarketDayLow := m.regularMarketDayLow }

/-- `x?.toLocaleString() || 'N/A'`: optional chaining short-circuits on
`undefined` and `null`; a `NaN` value renders the truthy string `"NaN"`. -/
def optLocaleOrNA (v : JSNum) : String :=
  match v with
  | .jsUndefined => "N/A"
  | .null => "N/A"
  | w => jsToLocaleString w

/-- One block of `formatMarketData` (the trimmed per-index template).
`index.longName` is never set on the records, so the name fallback chain
reduces to `shortName || symbol`.  The change-percent ternary tests
truthiness, so a zero or `NaN`-free absent percent renders `'N/A'`. -/
def marketBlock (r : IndexRecord) : String :=
  let changePercent :=
    if jsTruthyNum r.regularMarketChangePercent then
      jsToFixed (jsMul r.regularMarketChangePercent (.num 100)) 2 ++ "%"
    else "N/A"
  String.intercalate "\n"
    [ (if r.shortName = "" then r.symbol else r.shortName),
      "Price: " ++ optLocaleOrNA r.regularMarketPrice,
      "Change: " ++ optLocaleOrNA r.regularMarketChange ++ " (" ++ changePercent ++ ")",
      "Previous Close: " ++ optLocaleOrNA r.regularMarketPreviousClose,
      "Day Range: " ++ optLocaleOrNA r.regularMarketDayLow ++ " - " ++
        optLocaleOrNA r.regularMarketDayHigh ]

/-- `formatMarketData`: map each record to its block and join with a blank
line. -/
def formatMarketData (records : List IndexRecord) : String :=
  String.intercalate "\n\n" (records.map marketBlock)

/-- Outcome of one index's `fetchWithRetry` call: a thrown transport-level
error (after exhausted retries) or a settled response. -/
inductive IndexFetchOutcome where
  | fail (msg : String)
  | resp (r : HttpResponse QuoteChartResult)
deriving DecidableEq, Repr

/-- What the per-index loop body contributes to `indexResults`: a record
when the response is ok, the result entry exists and its `meta` is present;
nothing otherwise (a missing `meta` makes `result.meta.shortName` throw,
and the inner `catch` swallows it). -/
def indexRecordOf (sym : String) : IndexFetchOutcome → Option IndexRecord
  | .fail _ => none
  | .resp r =>
    if respOk r then
      match r.body with
      | some res =>
        match res.meta with
        | some m => some (mkIndexRecord sym m)
        | none => none
      | none => none
    else none

/-- The soft "unable to retrieve" text of the market-data pipeline. -/
def unableMarketMsg : String :=
  "Unable to retrieve market data. Yahoo Finance data may be temporarily unavailable."

/-- `fetchMarketData(indices)`: one `checkRateLimit()` call before the
sequential per-index loop.  The third component counts how many times
`checkRateLimit` was invoked during the call (instrumentation for the
claims; the source calls it exactly once, before the loop). -/
def fetchMarketData (now : Int) (st : RateState) (indices : List String)
    (transport : String → IndexFetchOutcome) :
    Except String String × RateState × Nat :=
  match checkRateLimit now st with
  | (.error e, st') => (.error e, st', 1)
  | (.ok _, st') =>
    let indexResults := indices.filterMap (fun sym => indexRecordOf sym (transport sym))
    if 0 < indexResults.length then (.ok (formatMarketData indexResults), st', 1)
    else (.ok unableMarketMsg, st', 1)

/-! ### History pipeline -/

/-- The `meta` block fields read by `formatStockHistory`.  The trade-date
fields are unix-second numbers, absent or zero being falsy. -/
structure HistoryMeta where
  currency : Option String
  firstTradeDate : Option Int
  regularMarketTime : Option Int
deriving DecidableEq, Repr

/-- The `data.chart.result[0]` entry for the history pipeline.  The
`adjclose` indicator is extracted by the source but never used, so it is
omitted. -/
structure HistoryData where
  meta : Option HistoryMeta
  timestamp : Option (List Int)
  indicators : Option QuoteIndicators
deriving DecidableEq, Repr

/-- `historyData.timestamp || []`. -/
def histTimestamps (hd : HistoryData) : List Int :=
  hd.timestamp.getD []

/-- `historyData.indicators?.quote?.[0] || {}`. -/
def histQuotes (hd : HistoryData) : QuoteSeries :=
  (hd.indicators.bind (·.quote.head?)).getD ⟨none, none, none, none, none⟩

/-- `arr?.[i]` on an optional OHLCV array: `undefined` when the array or
the element is missing, otherwise the element (possibly `null`). -/
def histCell (l : Option (List JSNum)) (i : Nat) : JSNum :=
  match l with
  | none => .jsUndefined
  | some xs => xs.getD i .jsUndefined

/-- `v?.toFixed(2) || 'N/A'` on a cell value. -/
def optFixedOrNA (v : JSNum) : String :=
  match v with
  | .jsUndefined => "N/A"
  | .null => "N/A"
  | w => jsToFixed w 2

/-- `String.prototype.padEnd(n)`. -/
def padEnd (s : String) (n : Nat) : String :=
  s ++ String.mk (List.replicate (n - s.length) ' ')

/-- Truthiness of an optional numeric timestamp (`0`, `null`, `undefined`
are falsy). -/
def truthyTime : Option Int → Bool
  | some n => n != 0
  | none => false

/-- The row stride of `formatStockHistory`:
`Math.max(1, Math.floor(timestamps.length / maxPoints))` with
`maxPoints = 10`. -/
def hstep (n : Nat) : Nat :=
  max 1 (n / 10)

/-- The indices visited by `for (let i = 0; i < len; i += s)` for a
positive stride `s`: the multiples of `s` below `len`, in order. -/
def strideIndices (len s : Nat) : List Nat :=
  (List.range len).filter (fun i => i % s = 0)

/-- One table row of `formatStockHistory`, at point index `i`. -/
def historyRow (hd : HistoryData) (dateFn : Int → String) (i : Nat) : String :=
  let q := histQuotes hd
  let date := dateFn ((histTimestamps hd).getD i 0)
  let openC := optFixedOrNA (histCell q.open_ i)
  let highC := optFixedOrNA (histCell q.high i)
  let lowC := optFixedOrNA (histCell q.low i)
  let closeC := optFixedOrNA (histCell q.close i)
  let volC := optLocaleOrNA (histCell q.volume i)
  padEnd date 11 ++ " | $" ++ padEnd openC 8 ++ " | $" ++ padEnd highC 8 ++
    " | $" ++ padEnd lowC 8 ++ " | $" ++ padEnd closeC 8 ++ " | " ++ volC ++ "\n"

/-- The list of table rows: one per stride-sampled index; skipped
intermediate points contribute nothing. -/
def historyRows (hd : HistoryData) (dateFn : Int → String) : List String :=
  let n := (histTimestamps hd).length
  (strideIndices n (hstep n)).map (historyRow hd dateFn)

/-- The trailing summary of `formatStockHistory`: emitted only when the
series is non-empty and the close values at index 0 and the last index are
both `!== undefined`; computed from the full series endpoints (a JSON
`null` endpoint passes the check and coerces to `0` in the arithmetic). -/
def historySummary (hd : HistoryData) : String :=
  let ts := histTimestamps hd
  let q := histQuotes hd
  if 0 < ts.length then
    let firstClose := histCell q.close 0
    let lastClose := histCell q.close (ts.length - 1)
    if firstClose ≠ JSNum.jsUndefined ∧ lastClose ≠ JSNum.jsUndefined then
      let change := jsSub lastClose firstClose
      let percentChange := jsMul (jsDiv change firstClose) (.num 100)
      "\nPrice Change: $" ++ jsToFixed change 2 ++ " (" ++ jsToFixed percentChange 2 ++ "%)"
    else ""
  else ""

/-- The fixed table header of the history report. -/
def historyTableHeader : String :=
  "Date       | Open     | High     | Low      | Close    | Volume\n" ++
  "-----------|----------|----------|----------|----------|------------\n"

/-- The header lines of the history report (symbol, period, interval,
currency, optional trading-period line). -/
def historyHeader (hd : HistoryData) (symbol period interval : String)
    (dateFn : Int → String) : String :=
  let currency := (jsOrStr (hd.meta.bind (·.currency)) (some "USD")).getD "USD"
  let fd := hd.meta.bind (·.firstTradeDate)
  let rmt := hd.meta.bind (·.regularMarketTime)
  "Historical data for " ++ symbol ++ " (" ++ period ++ ", " ++ interval ++
    " intervals)\n" ++ "Currency: " ++ currency ++ "\n" ++
    (if truthyTime fd && truthyTime rmt then
      "Trading Period: " ++ dateFn (fd.getD 0) ++ " to " ++ dateFn (rmt.getD 0) ++ "\n\n"
    else "\n")

/-- `formatStockHistory(historyData, symbol, period, interval)`.  The
`try`/`catch` of the source cannot fire in this total model. -/
def formatStockHistory (hd : HistoryData) (symbol period interval : String)
    (dateFn : Int → String) : String :=
  historyHeader hd symbol period interval dateFn ++ historyTableHeader ++
    String.join (historyRows hd dateFn) ++ historySummary hd

/-- The `validPeriods` list of `fetchStockHistory`. -/
def validPeriods : List String :=
  ["1d", "5d", "1mo", "3mo", "6mo", "1y", "2y", "5y", "10y", "ytd", "max"]

/-- The `validIntervals` list of `fetchStockHistory`. -/
def validIntervals : List String :=
  ["1m", "2m", "5m", "15m", "30m", "60m", "90m", "1h", "1d", "5d", "1wk", "1mo", "3mo"]

/-- `fetchStockHistory(symbol, period, interval)`: rate-limit check first
(before the `try` block, so its error is not wrapped), then
period/interval validation (errors wrapped by the `catch` into
`"Failed to fetch stock history: ..."`), then the fetch.  The
`period1`/`period2` window arithmetic only affects the URL, which is
abstracted along with the network; `resp` is the settled response.  The
third component records whether the HTTP fetch was reached. -/
def fetchStockHistory (now : Int) (st : RateState) (symbol period interval : String)
    (resp : HttpResponse HistoryData) (dateFn : Int → String) :
    Except String String × RateState × Bool :=
  match checkRateLimit now st with
  | (.error e, st') => (.error e, st', false)
  | (.ok _, st') =>
    if period ∉ validPeriods then
      (.error ("Failed to fetch stock history: Invalid period: " ++ period ++
        ". Valid periods are: " ++ String.intercalate ", " validPeriods), st', false)
    else if interval ∉ validIntervals then
      (.error ("Failed to fetch stock history: Invalid interval: " ++ interval ++
        ". Valid intervals are: " ++ String.intercalate ", " validIntervals), st', false)
    else if !respOk resp then
      (.error ("Failed to fetch stock history: API error: " ++ toString resp.status ++
        " " ++ resp.statusText), st', true)
    else
      match resp.body with
      | none => (.ok ("No historical data found for symbol: " ++ symbol), st', true)
      | some hd => (.ok (formatStockHistory hd symbol period interval dateFn), st', true)

/-- The backoff waits (ms) of `k` consecutive retried attempts starting at
attempt index `retries`: `2^attempt * 1000` each. -/
def backoffs (retries k : Nat) : List Nat :=
  (List.range k).map (fun j => 2 ^ (retries + j) * 1000)

/-- An attempt outcome that consumes a retry: an HTTP 429 response or a
transport-level exception. -/
def isRetryable : FetchOutcome → Bool
  | .resp s => s = 429
  | .err _ => true

/-- The `lastError` variable after running `fuel` retried attempts starting
at attempt index `retries` with accumulator `acc`: the message of the most
recent transport-level exception, if any. -/
def lastTransportErr (transport : Nat → FetchOutcome) : Nat → Nat → Option String → Option String
  | _, 0, acc => acc
  | retries, f + 1, acc =>
    match transport retries with
    | .err m => lastTransportErr transport (retries + 1) f (some m)
    | _ => lastTransportErr transport (retries + 1) f acc

/-! ### Concrete payloads used as claim witnesses -/

/-- A history series of 100 points (no OHLCV data). -/
def hd100 : HistoryData :=
  { meta := none, timestamp := some ((List.range 100).map Int.ofNat), indicators := none }

/-- A history series of 11 points (no OHLCV data). -/
def hd11 : HistoryData :=
  { meta := none, timestamp := some ((List.range 11).map Int.ofNat), indicators := none }


/-- A 3-point history series whose close values are 10, null, 20. -/
def hd3 : HistoryData :=
  { meta := none, timestamp := some [0, 1, 2],
    indicators := some { quote := [{ open_ := none, high := none, low := none,
                                      close := some [.num 10, .null, .num 20],
                                      volume := none }] } }

/-- A 1-point history series with no close data at all. -/
def hdNoClose : HistoryData :=
  { meta := none, timestamp := some [0], indicators := none }

/-- A quote `meta` block with every optional numeric field absent. -/
def metaAbsent : ChartMeta :=
  { symbol := "TST", shortName := none, longName := none,
    regularMarketPrice := .jsUndefined, chartPreviousClose := .jsUndefined,
    previousClose := .jsUndefined, regularMarketDayLow := .jsUndefined,
    regularMarketDayHigh := .jsUndefined, fiftyTwoWeekLow := .jsUndefined,
    fiftyTwoWeekHigh := .jsUndefined, regularMarketVolume := .jsUndefined,
    instrumentInfo := none }

/-- A chart result whose `meta` has every optional field absent. -/
def resAbsent : QuoteChartResult :=
  { meta := some metaAbsent, indicators := none }

/-- A fully-populated quote `meta` block. -/
def metaFull : ChartMeta :=
  { symbol := "AAPL", shortName := some "Apple Inc.", longName := none,
    regularMarketPrice := .num 196.34, chartPreviousClose := .num 194.67,
    previousClose := .jsUndefined, regularMarketDayLow := .num 194.14,
    regularMarketDayHigh := .num 197.21, fiftyTwoWeekLow := .num 124.17,
    fiftyTwoWeekHigh := .num 197.21, regularMarketVolume := .num 54364985,
    instrumentInfo := none }

/-- A fully-populated chart result. -/
def resFull : QuoteChartResult :=
  { meta := some metaFull,
    indicators := some { quote := [{ open_ := some [.num 195.01],
                                      high := some [.num 197.21],
                                      low := some [.num 194.14],
                                      close := some [.num 196.34],
                                      volume := some [.num 54364985] }] } }


/-! ### Theorems -/

/-- Within the minute window, each successful call increments both
counters and leaves the window anchors untouched. -/
lemma rateCalls_in_window (t0 : Int) (ts : List Int) : ∀ k : Nat,
    k + ts.length ≤ 20 → (∀ t ∈ ts, t - t0 ≤ 60000) →
    rateCalls ts ⟨k, k, t0, t0⟩ =
      (List.replicate ts.length true, ⟨k + ts.length, k + ts.length, t0, t0⟩) := by
  induction ts with
  | nil => intro k _ _; simp [rateCalls]
  | cons t ts ih =>
    intro k hk hw
    have hmem : t - t0 ≤ 60000 := hw t (List.mem_cons_self t ts)
    have h1 : ¬ (t - t0 > 60000) := by omega
    have h2 : ¬ (t - t0 > 86400000) := by omega
    have hA : ¬ ((20 : Nat) ≤ k) := by simp only [List.length_cons] at hk; omega
    have hB : ¬ ((500 : Nat) ≤ k) := by omega
    have hstep : checkRateLimit t ⟨k, k, t0, t0⟩ = (Except.ok (), ⟨k + 1, k + 1, t0, t0⟩) := by
      simp [checkRateLimit, RATE_LIMIT, h1, h2, hA, hB]
    have hrest := ih (k + 1) (by simp only [List.length_cons] at hk; omega)
      (fun u hu => hw u (List.mem_cons_of_mem t hu))
    simp only [rateCalls, hstep, hrest, exceptOk, List.length_cons, List.replicate_succ]
    have : k + 1 + ts.length = k + (ts.length + 1) := by omega
    rw [this]

/-- Claim C1: starting fresh at `t0`, every sequence of 20 calls within the
minute window all succeed, incrementing both counters to 20; the 21st call
within the window fails with the rate-limit error and leaves the state
unchanged; a call more than 60 seconds after the window start (but within
the day window) resets the minute counter, succeeds, and leaves the minute
counter at 1 (the day counter keeps counting, at 21). -/
theorem rateLimiter_window_C1 (t0 t21 tR : Int) (ts : List Int)
    (hlen : ts.length = 20)
    (hw : ∀ t ∈ ts, t - t0 ≤ 60000)
    (h21 : t21 - t0 ≤ 60000)
    (hR1 : 60000 < tR - t0) (hR2 : tR - t0 ≤ 86400000) :
    rateCalls ts (initRateState t0) =
      (List.replicate 20 true, ⟨20, 20, t0, t0⟩) ∧
    checkRateLimit t21 (⟨20, 20, t0, t0⟩ : RateState) =
      (Except.error "Rate limit exceeded. Please try again later.", ⟨20, 20, t0, t0⟩) ∧
    checkRateLimit tR (⟨20, 20, t0, t0⟩ : RateState) =
      (Except.ok (), ⟨1, 21, tR, t0⟩) := by
  refine ⟨?_, ?_, ?_⟩
  · have := rateCalls_in_window t0 ts 0 (by omega) hw
    simpa [initRateState, hlen] using this
  · have h1 : ¬ (t21 - t0 > 60000) := by omega
    have h2 : ¬ (t21 - t0 > 86400000) := by omega
    simp [checkRateLimit, RATE_LIMIT, h1, h2]
  · have h1 : tR - t0 > 60000 := hR1
    have h2 : ¬ (tR - t0 > 86400000) := by omega
    simp [checkRateLimit, RATE_LIMIT, h1, h2]

/-- Witness for C1 at `t0 = 0`, twenty calls at time 0, a 21st call at
time 60000, and a reset call at time 60001. -/
theorem rateLimiter_window_C1_witness :
    rateCalls (List.replicate 20 (0 : Int)) (initRateState 0) =
      (List.replicate 20 true, ⟨20, 20, 0, 0⟩) ∧
    checkRateLimit 60000 (⟨20, 20, 0, 0⟩ : RateState) =
      (Except.error "Rate limit exceeded. Please try again later.", ⟨20, 20, 0, 0⟩) ∧
    checkRateLimit 60001 (⟨20, 20, 0, 0⟩ : RateState) =
      (Except.ok (), ⟨1, 21, 60001, 0⟩) :=
  rateLimiter_window_C1 0 60000 60001 (List.replicate 20 0)
    (by simp) (by intro t ht; simp at ht; omega) (by omega) (by omega) (by omega)

lemma backoffs_succ (retries k : Nat) :
    backoffs retries (k + 1) = 2 ^ retries * 1000 :: backoffs (retries + 1) k := by
  simp only [backoffs, List.range_succ_eq_map, List.map_cons, List.map_map, Nat.add_zero]
  have h : ((fun j => 2 ^ (retries + j) * 1000) ∘ Nat.succ) =
      (fun j => 2 ^ (retries + 1 + j) * 1000) := by
    funext j
    simp only [Function.comp_apply]
    have : retries + Nat.succ j = retries + 1 + j := by omega
    rw [this]
  rw [h]

lemma fetchLoop_step_resp (transport : Nat → FetchOutcome) (f retries : Nat)
    (lastError : Option String) (waits : List Nat) (s : Nat)
    (hT : transport retries = .resp s) (hs : s ≠ 429) :
    fetchLoop transport (f + 1) retries lastError waits = (Except.ok s, waits) := by
  simp only [fetchLoop, hT]

lemma fetchLoop_step_429 (transport : Nat → FetchOutcome) (f retries : Nat)
    (lastError : Option String) (waits : List Nat)
    (hT : transport retries = .resp 429) :
    fetchLoop transport (f + 1) retries lastError waits =
      fetchLoop transport f (retries + 1) lastError (waits ++ [2 ^ retries * 1000]) := by
  simp only [fetchLoop, hT]

lemma fetchLoop_step_err (transport : Nat → FetchOutcome) (f retries : Nat)
    (lastError : Option String) (waits : List Nat) (m : String)
    (hT : transport retries = .err m) :
    fetchLoop transport (f + 1) retries lastError waits =
      fetchLoop transport f (retries + 1) (some m) (waits ++ [2 ^ retries * 1000]) := by
  simp only [fetchLoop, hT]

/-- If the first `k` attempts are retryable (429 or transport error) and
attempt `k` settles with a non-429 response, the loop returns that response
immediately, after exactly the `k` backoff waits. -/
lemma fetchLoop_returns (transport : Nat → FetchOutcome) : ∀ (k fuel retries : Nat)
    (lastError : Option String) (waits : List Nat) (s : Nat),
    k < fuel →
    (∀ j, j < k → isRetryable (transport (retries + j))) →
    transport (retries + k) = .resp s → s ≠ 429 →
    fetchLoop transport fuel retries lastError waits =
      (Except.ok s, waits ++ backoffs retries k) := by
  intro k
  induction k with
  | zero =>
    intro fuel retries lastError waits s hfuel _ hresp hs
    match fuel, hfuel with
    | f + 1, _ =>
      rw [fetchLoop_step_resp transport f retries lastError waits s
        (by simpa using hresp) hs]
      simp [backoffs]
  | succ k ih =>
    intro fuel retries lastError waits s hfuel hretry hresp hs
    match fuel, hfuel with
    | f + 1, hfuel =>
      have h0 : isRetryable (transport retries) := by
        have := hretry 0 (by omega)
        simpa using this
      have hrec : ∀ j, j < k → isRetryable (transport (retries + 1 + j)) := by
        intro j hj
        have := hretry (j + 1) (by omega)
        rwa [show retries + (j + 1) = retries + 1 + j by omega] at this
      have hresp' : transport (retries + 1 + k) = .resp s := by
        rwa [show retries + (k + 1) = retries + 1 + k by omega] at hresp
      rw [backoffs_succ, show waits ++ (2 ^ retries * 1000 :: backoffs (retries + 1) k) =
        (waits ++ [2 ^ retries * 1000]) ++ backoffs (retries + 1) k by simp]
      cases hT : transport retries with
      | resp st =>
        have hst : st = 429 := by
          rw [hT] at h0
          simpa [isRetryable] using h0
        subst hst
        rw [fetchLoop_step_429 transport f retries lastError waits hT]
        exact ih f (retries + 1) lastError (waits ++ [2 ^ retries * 1000]) s
          (by omega) hrec hresp' hs
      | err m =>
        rw [fetchLoop_step_err transport f retries lastError waits m hT]
        exact ih f (retries + 1) (some m) (waits ++ [2 ^ retries * 1000]) s
          (by omega) hrec hresp' hs

/-- If every remaining attempt is retryable, the loop exhausts its fuel,
waits the full backoff schedule, and throws the last transport error (or
the generic message when no transport exception occurred). -/
lemma fetchLoop_exhausts (transport : Nat → FetchOutcome) : ∀ (fuel retries : Nat)
    (lastError : Option String) (waits : List Nat),
    (∀ j, j < fuel → isRetryable (transport (retries + j))) →
    fetchLoop transport fuel retries lastError waits =
      (Except.error ((lastTransportErr transport retries fuel lastError).getD
        "Maximum retries exceeded"), waits ++ backoffs retries fuel) := by
  intro fuel
  induction fuel with
  | zero =>
    intro retries lastError waits _
    simp [fetchLoop, lastTransportErr, backoffs]
  | succ f ih =>
    intro retries lastError waits hretry
    have h0 : isRetryable (transport retries) := by
      have := hretry 0 (by omega)
      simpa using this
    have hrec : ∀ j, j < f → isRetryable (transport (retries + 1 + j)) := by
      intro j hj
      have := hretry (j + 1) (by omega)
      rwa [show retries + (j + 1) = retries + 1 + j by omega] at this
    rw [backoffs_succ, show waits ++ (2 ^ retries * 1000 :: backoffs (retries + 1) f) =
      (waits ++ [2 ^ retries * 1000]) ++ backoffs (retries + 1) f by simp]
    cases hT : transport retries with
    | resp st =>
      have hst : st = 429 := by
        rw [hT] at h0
        simpa [isRetryable] using h0
      subst hst
      rw [fetchLoop_step_429 transport f retries lastError waits hT]
      rw [ih (retries + 1) lastError (waits ++ [2 ^ retries * 1000]) hrec]
      simp only [lastTransportErr, hT]
    | err m =>
      rw [fetchLoop_step_err transport f retries lastError waits m hT]
      rw [ih (retries + 1) (some m) (waits ++ [2 ^ retries * 1000]) hrec]
      simp only [lastTransportErr, hT]

/-- Claim C2: in `fetchWithRetry`, every transport failure and every HTTP
429 consumes one retry attempt after a `2^attempt`-second backoff; any
other status is returned immediately; exhausted retries throw the last
transport error, or the generic "Maximum retries exceeded" when every
failure was a 429.  In particular a transport failing twice then succeeding
(maxRetries 3) returns the response after exactly two backoffs (1s, 2s),
and an always-429 transport fails after 3 attempts. -/
theorem fetchWithRetry_C2 :
    (∀ (transport : Nat → FetchOutcome) (maxRetries k s : Nat),
      k < maxRetries →
      (∀ j, j < k → isRetryable (transport j)) →
      transport k = .resp s → s ≠ 429 →
      fetchWithRetry transport maxRetries = (Except.ok s, backoffs 0 k)) ∧
    (∀ (transport : Nat → FetchOutcome) (maxRetries : Nat),
      (∀ j, j < maxRetries → isRetryable (transport j)) →
      fetchWithRetry transport maxRetries =
        (Except.error ((lastTransportErr transport 0 maxRetries none).getD
          "Maximum retries exceeded"), backoffs 0 maxRetries)) ∧
    fetchWithRetry (fun j => if j < 2 then .err "connection reset" else .resp 200) 3 =
      (Except.ok 200, [1000, 2000]) ∧
    fetchWithRetry (fun _ => .resp 429) 3 =
      (Except.error "Maximum retries exceeded", [1000, 2000, 4000]) := by
  refine ⟨?_, ?_, by rfl, by rfl⟩
  · intro transport maxRetries k s hk hretry hresp hs
    have := fetchLoop_returns transport k maxRetries 0 none [] s hk
      (by intro j hj; simpa using hretry j hj) (by simpa using hresp) hs
    simpa [fetchWithRetry] using this
  · intro transport maxRetries hretry
    have := fetchLoop_exhausts transport maxRetries 0 none []
      (by intro j hj; simpa using hretry j hj)
    simpa [fetchWithRetry] using this

/-- Witness for C2: a transport returning 429 once then 200 settles with
the 200 response after one backoff; a transport failing with a transport
error on all of 3 attempts throws the last transport error. -/
theorem fetchWithRetry_C2_witness :
    fetchWithRetry (fun j => if j = 0 then FetchOutcome.resp 429 else .resp 200) 3 =
      (Except.ok 200, backoffs 0 1) ∧
    fetchWithRetry (fun j => FetchOutcome.err (toString j)) 3 =
      (Except.error ((lastTransportErr (fun j => FetchOutcome.err (toString j)) 0 3 none).getD
        "Maximum retries exceeded"), backoffs 0 3) :=
  ⟨fetchWithRetry_C2.1 _ 3 1 200 (by omega) (by decide) (by decide) (by decide),
   fetchWithRetry_C2.2.1 _ 3 (by intro j hj; simp [isRetryable])⟩

lemma strideIndices_succ (n s : Nat) :
    strideIndices (n + 1) s = strideIndices n s ++ (if n % s = 0 then [n] else []) := by
  by_cases h : n % s = 0 <;>
    simp [strideIndices, List.range_succ, List.filter_append, h]

/-- The number of multiples of `s` below `n`. -/
lemma strideIndices_length (s : Nat) :
    ∀ n, (strideIndices n s).length = if n = 0 then 0 else (n - 1) / s + 1 := by
  intro n
  induction n with
  | zero => simp [strideIndices]
  | succ n ih =>
    rw [strideIndices_succ, List.length_append, ih]
    by_cases hn : n = 0
    · subst hn
      simp
    · rw [if_neg hn, if_neg (by omega : ¬ n + 1 = 0)]
      have hn1 : n - 1 + 1 = n := by omega
      have hd := Nat.succ_div (n - 1) s
      rw [hn1] at hd
      have hrw : n + 1 - 1 = n := by omega
      rw [hrw]
      by_cases h : n % s = 0
      · rw [if_pos h, hd, if_pos (Nat.dvd_of_mod_eq_zero h)]
        simp
      · rw [if_neg h, hd, if_neg (fun hdvd => h (Nat.dvd_iff_mod_eq_zero.mp hdvd))]
        simp

/-- Ceiling-division form of the row count. -/
lemma strideIndices_length_ceil (s n : Nat) (hs : 0 < s) (hn : 0 < n) :
    (strideIndices n s).length = (n + s - 1) / s := by
  rw [strideIndices_length s n, if_neg (by omega),
    show n + s - 1 = (n - 1) + s by omega, Nat.add_div_right _ hs]

/-- Claim C3 (amended): the history table rows are exactly the
stride-sample of the point series at stride `max(1, ⌊n/10⌋)` starting at
index 0 (skipped points are dropped, not aggregated), and the number of
rows is `⌈n / stride⌉` — which is 10 exactly for a 100-point series (stride
10), but is NOT bounded by 10 in general. -/
theorem historyRows_C3 :
    (∀ (hd : HistoryData) (dateFn : Int → String),
      historyRows hd dateFn =
        (strideIndices (histTimestamps hd).length
          (hstep (histTimestamps hd).length)).map (historyRow hd dateFn)) ∧
    (∀ (hd : HistoryData) (dateFn : Int → String),
      0 < (histTimestamps hd).length →
      (historyRows hd dateFn).length =
        ((histTimestamps hd).length + hstep (histTimestamps hd).length - 1) /
          hstep (histTimestamps hd).length) ∧
    strideIndices 100 (hstep 100) = [0, 10, 20, 30, 40, 50, 60, 70, 80, 90] ∧
    hstep 100 = 10 := by
  refine ⟨fun hd f => rfl, ?_, by decide, by decide⟩
  intro hd f hn
  have hs : 0 < hstep (histTimestamps hd).length :=
    Nat.lt_of_lt_of_le Nat.zero_lt_one (le_max_left 1 _)
  show ((strideIndices _ _).map _).length = _
  rw [List.length_map]
  exact strideIndices_length_ceil _ _ hs hn

/-- Witness for C3: the 100-point series renders exactly 10 rows. -/
theorem historyRows_C3_witness :
    (historyRows hd100 (fun _ => "")).length = 10 := by
  have h := historyRows_C3.2.1 hd100 (fun _ => "") (by decide)
  rw [h]
  decide

/-- Counterexample to C3 as stated: an 11-point series renders 11 table
rows, more than the claimed bound of 10 (stride `max(1, ⌊11/10⌋) = 1`
keeps every point). -/
theorem historyRows_C3_counterexample :
    (historyRows hd11 (fun _ => "")).length = 11 ∧
    ¬ ((historyRows hd11 (fun _ => "")).length ≤ 10) := by
  constructor <;> decide

/-- When the series is empty or either endpoint close is `undefined`, the
summary of `formatStockHistory` is empty. -/
lemma historySummary_eq_empty (hd : HistoryData)
    (h : (histTimestamps hd).length = 0 ∨
         histCell (histQuotes hd).close 0 = .jsUndefined ∨
         histCell (histQuotes hd).close ((histTimestamps hd).length - 1) = .jsUndefined) :
    historySummary hd = "" := by
  simp only [historySummary]
  rcases h with h | h | h
  · rw [if_neg (by omega)]
  · by_cases hn : 0 < (histTimestamps hd).length
    · rw [if_pos hn, h, if_neg (by simp)]
    · rw [if_neg hn]
  · by_cases hn : 0 < (histTimestamps hd).length
    · rw [if_pos hn, h, if_neg (by simp)]
    · rw [if_neg hn]

/-- Claim C4: for a non-empty series whose close values at index 0 and at
the last index are both present numbers, the report ends with a summary
line whose price change is `lastClose - firstClose` and whose percent
change is that change divided by the first close times 100, computed from
the endpoints of the full untruncated series (the formula mentions no
sampled row); when the series is empty or either endpoint close is absent,
no summary line is appended. -/
theorem historySummary_C4 :
    (∀ (hd : HistoryData) (sym p iv : String) (dateFn : Int → String) (c0 cl : ℚ),
      0 < (histTimestamps hd).length →
      histCell (histQuotes hd).close 0 = .num c0 →
      histCell (histQuotes hd).close ((histTimestamps hd).length - 1) = .num cl →
      c0 ≠ 0 →
      formatStockHistory hd sym p iv dateFn =
        historyHeader hd sym p iv dateFn ++ historyTableHeader ++
          String.join (historyRows hd dateFn) ++
          ("\nPrice Change: $" ++ qToFixed (cl - c0) 2 ++ " (" ++
            qToFixed ((cl - c0) / c0 * 100) 2 ++ "%)")) ∧
    (∀ (hd : HistoryData) (sym p iv : String) (dateFn : Int → String),
      ((histTimestamps hd).length = 0 ∨
       histCell (histQuotes hd).close 0 = .jsUndefined ∨
       histCell (histQuotes hd).close ((histTimestamps hd).length - 1) = .jsUndefined) →
      formatStockHistory hd sym p iv dateFn =
        historyHeader hd sym p iv dateFn ++ historyTableHeader ++
          String.join (historyRows hd dateFn)) := by
  constructor
  · intro hd sym p iv dateFn c0 cl hn h0 hl hc0
    simp only [formatStockHistory]
    congr 1
    simp only [historySummary, if_pos hn, h0, hl]
    rw [if_pos (by simp : (JSNum.num c0 ≠ JSNum.jsUndefined ∧ JSNum.num cl ≠ JSNum.jsUndefined))]
    simp only [jsSub, jsMul, jsDiv, JSNum.toNumber, jsToFixed]
    rw [if_neg hc0]
  · intro hd sym p iv dateFn h
    simp only [formatStockHistory, historySummary_eq_empty hd h]
    simp

/-- Witness for C4: a 3-point series with closes 10, null, 20 gets the
endpoint summary; a series with no close data gets none. -/
theorem historySummary_C4_witness :
    formatStockHistory hd3 "AAPL" "1mo" "1d" (fun _ => "") =
      historyHeader hd3 "AAPL" "1mo" "1d" (fun _ => "") ++ historyTableHeader ++
        String.join (historyRows hd3 (fun _ => "")) ++
        ("\nPrice Change: $" ++ qToFixed (20 - 10) 2 ++ " (" ++
          qToFixed ((20 - 10) / 10 * 100) 2 ++ "%)") ∧
    formatStockHistory hdNoClose "AAPL" "1mo" "1d" (fun _ => "") =
      historyHeader hdNoClose "AAPL" "1mo" "1d" (fun _ => "") ++ historyTableHeader ++
        String.join (historyRows hdNoClose (fun _ => "")) :=
  ⟨historySummary_C4.1 hd3 "AAPL" "1mo" "1d" (fun _ => "") 10 20 (by decide) (by decide)
      (by decide) (by norm_num),
   historySummary_C4.2 hdNoClose "AAPL" "1mo" "1d" (fun _ => "") (Or.inr (Or.inl (by decide)))⟩

/-- Claim C5: on a settled non-2xx, non-429 response the quote pipeline
returns the soft "Unable to retrieve" text as an ordinary success, the
market-data pipeline (all indices so failing) returns its soft text as an
ordinary success, and the history pipeline raises a hard error whose
message carries the status code and status text. -/
theorem upstreamStatus_C5 :
    (∀ (now : Int) (st : RateState) (sym : String) (resp : HttpResponse QuoteChartResult),
      (checkRateLimit now st).1 = .ok () →
      respOk resp = false → resp.status ≠ 429 →
      (fetchStockQuote now st sym resp).1 = .ok (unableQuoteMsg sym)) ∧
    (∀ (now : Int) (st : RateState) (indices : List String)
        (transport : String → IndexFetchOutcome),
      (checkRateLimit now st).1 = .ok () →
      (∀ s ∈ indices, ∃ r, transport s = .resp r ∧ respOk r = false ∧ r.status ≠ 429) →
      (fetchMarketData now st indices transport).1 = .ok unableMarketMsg) ∧
    (∀ (now : Int) (st : RateState) (sym p iv : String)
        (resp : HttpResponse HistoryData) (dateFn : Int → String),
      (checkRateLimit now st).1 = .ok () →
      p ∈ validPeriods → iv ∈ validIntervals →
      respOk resp = false → resp.status ≠ 429 →
      (fetchStockHistory now st sym p iv resp dateFn).1 =
        .error ("Failed to fetch stock history: API error: " ++ toString resp.status ++
          " " ++ resp.statusText)) := by
  refine ⟨?_, ?_, ?_⟩
  · intro now st sym resp hrl hok _
    rcases hE : checkRateLimit now st with ⟨r, st2⟩
    rw [hE] at hrl
    simp only at hrl
    subst hrl
    simp [fetchStockQuote, hE, hok]
  · intro now st indices transport hrl hall
    rcases hE : checkRateLimit now st with ⟨r, st2⟩
    rw [hE] at hrl
    simp only at hrl
    subst hrl
    have hnil : indices.filterMap (fun s => indexRecordOf s (transport s)) = [] := by
      rw [List.filterMap_eq_nil_iff]
      intro s hs
      obtain ⟨rr, hT, hok, _⟩ := hall s hs
      simp [indexRecordOf, hT, hok]
    simp [fetchMarketData, hE, hnil]
  · intro now st sym p iv resp dateFn hrl hp hi hok _
    rcases hE : checkRateLimit now st with ⟨r, st2⟩
    rw [hE] at hrl
    simp only at hrl
    subst hrl
    simp [fetchStockHistory, hE, hp, hi, hok]

/-- Witness for C5: a 500 "Internal Server Error" response from a fresh
state. -/
theorem upstreamStatus_C5_witness :
    (fetchStockQuote 0 (initRateState 0) "AAPL"
      { status := 500, statusText := "Internal Server Error", body := none }).1 =
      .ok (unableQuoteMsg "AAPL") ∧
    (fetchMarketData 0 (initRateState 0) ["^GSPC"]
      (fun _ => .resp { status := 500, statusText := "Internal Server Error",
                        body := none })).1 = .ok unableMarketMsg ∧
    (fetchStockHistory 0 (initRateState 0) "AAPL" "1mo" "1d"
      { status := 500, statusText := "Internal Server Error", body := none }
      (fun _ => "")).1 =
      .error ("Failed to fetch stock history: API error: " ++ toString (500 : Nat) ++
        " " ++ "Internal Server Error") :=
  ⟨upstreamStatus_C5.1 0 (initRateState 0) "AAPL" _ (by rfl) (by decide) (by decide),
   upstreamStatus_C5.2.1 0 (initRateState 0) ["^GSPC"] _ (by rfl)
     (by intro s hs
         exact ⟨_, rfl, by decide, by decide⟩),
   upstreamStatus_C5.2.2 0 (initRateState 0) "AAPL" "1mo" "1d" _ (fun _ => "")
     (by rfl) (by decide) (by decide) (by decide) (by decide)⟩

/-- Claim C6: an invalid period (or, with a valid period, an invalid
interval) makes the history pipeline fail immediately with a hard error
naming the offending value and listing the full allowed set, and the HTTP
fetch is never reached. -/
theorem historyValidation_C6 :
    (∀ (now : Int) (st : RateState) (sym p iv : String)
        (resp : HttpResponse HistoryData) (dateFn : Int → String),
      (checkRateLimit now st).1 = .ok () →
      p ∉ validPeriods →
      fetchStockHistory now st sym p iv resp dateFn =
        (.error ("Failed to fetch stock history: Invalid period: " ++ p ++
          ". Valid periods are: 1d, 5d, 1mo, 3mo, 6mo, 1y, 2y, 5y, 10y, ytd, max"),
         (checkRateLimit now st).2, false)) ∧
    (∀ (now : Int) (st : RateState) (sym p iv : String)
        (resp : HttpResponse HistoryData) (dateFn : Int → String),
      (checkRateLimit now st).1 = .ok () →
      p ∈ validPeriods → iv ∉ validIntervals →
      fetchStockHistory now st sym p iv resp dateFn =
        (.error ("Failed to fetch stock history: Invalid interval: " ++ iv ++
          ". Valid intervals are: 1m, 2m, 5m, 15m, 30m, 60m, 90m, 1h, 1d, 5d, 1wk, 1mo, 3mo"),
         (checkRateLimit now st).2, false)) := by
  have hvp : String.intercalate ", " validPeriods =
      "1d, 5d, 1mo, 3mo, 6mo, 1y, 2y, 5y, 10y, ytd, max" := by decide
  have hvi : String.intercalate ", " validIntervals =
      "1m, 2m, 5m, 15m, 30m, 60m, 90m, 1h, 1d, 5d, 1wk, 1mo, 3mo" := by decide
  constructor
  · intro now st sym p iv resp dateFn hrl hp
    rcases hE : checkRateLimit now st with ⟨r, st2⟩
    rw [hE] at hrl
    simp only at hrl
    subst hrl
    simp [fetchStockHistory, hE, hp, hvp]
    rw [String.append_assoc]
    rfl
  · intro now st sym p iv resp dateFn hrl hp hi
    rcases hE : checkRateLimit now st with ⟨r, st2⟩
    rw [hE] at hrl
    simp only at hrl
    subst hrl
    simp [fetchStockHistory, hE, hp, hi, hvi]
    rw [String.append_assoc]
    rfl

/-- Witness for C6: the invalid period "1week" and, with a valid period,
the invalid interval "7m", both from a fresh state. -/
theorem historyValidation_C6_witness :
    fetchStockHistory 0 (initRateState 0) "AAPL" "1week" "1d"
      { status := 200, statusText := "OK", body := none } (fun _ => "") =
      (.error ("Failed to fetch stock history: Invalid period: " ++ "1week" ++
        ". Valid periods are: 1d, 5d, 1mo, 3mo, 6mo, 1y, 2y, 5y, 10y, ytd, max"),
       (checkRateLimit 0 (initRateState 0)).2, false) ∧
    fetchStockHistory 0 (initRateState 0) "AAPL" "1mo" "7m"
      { status := 200, statusText := "OK", body := none } (fun _ => "") =
      (.error ("Failed to fetch stock history: Invalid interval: " ++ "7m" ++
        ". Valid intervals are: 1m, 2m, 5m, 15m, 30m, 60m, 90m, 1h, 1d, 5d, 1wk, 1mo, 3mo"),
       (checkRateLimit 0 (initRateState 0)).2, false) :=
  ⟨historyValidation_C6.1 0 (initRateState 0) "AAPL" "1week" "1d" _ (fun _ => "")
      (by rfl) (by decide),
   historyValidation_C6.2 0 (initRateState 0) "AAPL" "1mo" "7m" _ (fun _ => "")
      (by rfl) (by decide) (by decide)⟩

/-- Claim C7 (amended): `fetchMarketData` invokes `checkRateLimit` exactly
once for the whole batch — before the per-index loop — regardless of how
many indices are fetched; an in-window, under-limit state is therefore
incremented by exactly one unit of each counter, not by one unit per
index. -/
theorem marketRateLimit_C7 (now : Int) (st : RateState) (indices : List String)
    (transport : String → IndexFetchOutcome)
    (h1 : now - st.lastMinuteReset ≤ 60000) (h2 : now - st.lastDayReset ≤ 86400000)
    (h3 : st.minute < 20) (h4 : st.day < 500) :
    (fetchMarketData now st indices transport).2.2 = 1 ∧
    (fetchMarketData now st indices transport).2.1 =
      { st with minute := st.minute + 1, day := st.day + 1 } := by
  have hcrl : checkRateLimit now st =
      (Except.ok (), { st with minute := st.minute + 1, day := st.day + 1 }) := by
    simp [checkRateLimit, RATE_LIMIT,
      show ¬(now - st.lastMinuteReset > 60000) by omega,
      show ¬(now - st.lastDayReset > 86400000) by omega,
      show ¬((20 : Nat) ≤ st.minute) by omega,
      show ¬((500 : Nat) ≤ st.day) by omega]
  refine ⟨?_, ?_⟩ <;>
    · simp only [fetchMarketData, hcrl]
      split <;> rfl

/-- Witness for C7 (amended): a fresh state and a batch of three indices. -/
theorem marketRateLimit_C7_witness :
    (fetchMarketData 0 (initRateState 0) ["^GSPC", "^DJI", "^IXIC"]
      (fun _ => .fail "network down")).2.2 = 1 ∧
    (fetchMarketData 0 (initRateState 0) ["^GSPC", "^DJI", "^IXIC"]
      (fun _ => .fail "network down")).2.1 =
      { initRateState 0 with minute := 1, day := 1 } :=
  marketRateLimit_C7 0 (initRateState 0) ["^GSPC", "^DJI", "^IXIC"]
    (fun _ => .fail "network down") (by decide) (by decide) (by decide) (by decide)

/-- Counterexample to C7 as stated: a batch of three indices invokes
`checkRateLimit` once, not three times, and leaves the minute counter at 1,
not 3. -/
theorem marketRateLimit_C7_counterexample :
    (fetchMarketData 0 (initRateState 0) ["^GSPC", "^DJI", "^IXIC"]
      (fun _ => .fail "network down")).2.2 = 1 ∧
    (fetchMarketData 0 (initRateState 0) ["^GSPC", "^DJI", "^IXIC"]
      (fun _ => .fail "network down")).2.2 ≠ 3 ∧
    (fetchMarketData 0 (initRateState 0) ["^GSPC", "^DJI", "^IXIC"]
      (fun _ => .fail "network down")).2.1.minute = 1 := by
  refine ⟨by rfl, by decide, by rfl⟩

/-- Claim C8 (amended): in the quote report every absent non-derived field
renders "N/A", but the derived change and change-percent are computed
unconditionally from `regularMarketPrice` and `chartPreviousClose`, so
when either operand is absent the change line renders "Change: $NaN
(NaN%)" rather than "N/A"; with all fields present, numbers render with
grouped thousands separators and percents as the value times 100 to two
decimals with a % sign. -/
theorem quoteFormatting_C8 :
    (∀ (m : ChartMeta) (res : QuoteChartResult) (sym : String),
      m.regularMarketPrice = .jsUndefined ∨ m.chartPreviousClose = .jsUndefined →
      (quoteLines (mkQuoteData m res sym)).get? 3 = some "Change: $NaN (NaN%)") ∧
    quoteLines (mkQuoteData metaAbsent resAbsent "TST") =
      ["Symbol: TST", "Name: TST", "Price: $N/A", "Change: $NaN (NaN%)",
       "Previous Close: $N/A", "Open: $N/A", "Day Range: $N/A - $N/A",
       "52 Week Range: $N/A - $N/A", "Volume: N/A", "Avg. Volume: N/A",
       "Market Cap: $N/A", "P/E Ratio: N/A", "EPS: $N/A", "Dividend Yield: N/A"] ∧
    quoteLines (mkQuoteData metaFull resFull "AAPL") =
      ["Symbol: AAPL", "Name: Apple Inc.", "Price: $196.34",
       "Change: $1.67 (0.86%)", "Previous Close: $194.67", "Open: $195.01",
       "Day Range: $194.14 - $197.21", "52 Week Range: $124.17 - $197.21",
       "Volume: 54,364,985", "Avg. Volume: N/A", "Market Cap: $N/A",
       "P/E Ratio: N/A", "EPS: $N/A", "Dividend Yield: N/A"] := by
  refine ⟨?_, by decide, by decide⟩
  intro m res sym h
  have hsub : jsSub m.regularMarketPrice m.chartPreviousClose = .nan := by
    rcases h with h | h
    · rw [h]
      cases m.chartPreviousClose <;> simp [jsSub, JSNum.toNumber]
    · rw [h]
      cases m.regularMarketPrice <;> simp [jsSub, JSNum.toNumber]
  have hdiv : jsDiv JSNum.nan m.chartPreviousClose = .nan := by
    cases m.chartPreviousClose <;> simp [jsDiv, JSNum.toNumber]
  simp [quoteLines, mkQuoteData, hsub, hdiv, formatNumber, formatPercent,
    jsMul, JSNum.toNumber, jsToFixed, jsToLocaleString]

/-- Witness for C8: the all-absent payload hits the NaN change line. -/
theorem quoteFormatting_C8_witness :
    (quoteLines (mkQuoteData metaAbsent resAbsent "X")).get? 3 =
      some "Change: $NaN (NaN%)" :=
  quoteFormatting_C8.1 metaAbsent resAbsent "X" (Or.inl rfl)

/-- Counterexample to C8 as stated: with both change operands absent the
change line renders "$NaN (NaN%)" — the subtraction is still attempted and
the result is not rendered as absent ("N/A"). -/
theorem quoteFormatting_C8_counterexample :
    (quoteLines (mkQuoteData metaAbsent resAbsent "TST")).get? 3 =
      some "Change: $NaN (NaN%)" ∧
    (quoteLines (mkQuoteData metaAbsent resAbsent "TST")).get? 3 ≠
      some "Change: $N/A (N/A)" := by
  constructor <;> decide

/-- Claim C9: the market-data batch raises no error when some indices
fail: the result is exactly the blocks of the successful records, in fetch
order, joined by a blank line; an all-failing batch yields the soft
"Unable to retrieve market data" text as an ordinary success. -/
theorem marketBatch_C9 :
    (∀ (now : Int) (st : RateState) (indices : List String)
        (transport : String → IndexFetchOutcome),
      (checkRateLimit now st).1 = .ok () →
      indices.filterMap (fun s => indexRecordOf s (transport s)) ≠ [] →
      (fetchMarketData now st indices transport).1 =
        .ok (String.intercalate "\n\n"
          ((indices.filterMap (fun s => indexRecordOf s (transport s))).map marketBlock))) ∧
    (∀ (now : Int) (st : RateState) (a b c : String)
        (transport : String → IndexFetchOutcome) (ra rc : IndexRecord),
      (checkRateLimit now st).1 = .ok () →
      indexRecordOf a (transport a) = some ra →
      indexRecordOf b (transport b) = none →
      indexRecordOf c (transport c) = some rc →
      (fetchMarketData now st [a, b, c] transport).1 =
        .ok (marketBlock ra ++ "\n\n" ++ marketBlock rc)) ∧
    (∀ (now : Int) (st : RateState) (indices : List String)
        (transport : String → IndexFetchOutcome),
      (checkRateLimit now st).1 = .ok () →
      (∀ s ∈ indices, indexRecordOf s (transport s) = none) →
      (fetchMarketData now st indices transport).1 = .ok unableMarketMsg) := by
  refine ⟨?_, ?_, ?_⟩
  · intro now st indices transport hrl hne
    rcases hE : checkRateLimit now st with ⟨r, st2⟩
    rw [hE] at hrl
    simp only at hrl
    subst hrl
    have hpos : 0 < (indices.filterMap (fun s => indexRecordOf s (transport s))).length :=
      List.length_pos.mpr hne
    simp [fetchMarketData, hE, hpos, formatMarketData]
  · intro now st a b c transport ra rc hrl ha hb hc
    rcases hE : checkRateLimit now st with ⟨r, st2⟩
    rw [hE] at hrl
    simp only at hrl
    subst hrl
    have hfm : [a, b, c].filterMap (fun s => indexRecordOf s (transport s)) = [ra, rc] := by
      simp [List.filterMap, ha, hb, hc]
    simp [fetchMarketData, hE, hfm, formatMarketData]
    rfl
  · intro now st indices transport hrl hall
    rcases hE : checkRateLimit now st with ⟨r, st2⟩
    rw [hE] at hrl
    simp only at hrl
    subst hrl
    have hnil : indices.filterMap (fun s => indexRecordOf s (transport s)) = [] := by
      rw [List.filterMap_eq_nil_iff]
      exact hall
    simp [fetchMarketData, hE, hnil]

/-- Witness for C9: three indices with the middle one failing yield
exactly the two successful blocks in fetch order; an all-failing batch
yields the soft message. -/
theorem marketBatch_C9_witness :
    (fetchMarketData 0 (initRateState 0) ["A", "B", "C"]
      (fun s => if s = "B" then .fail "boom"
        else .resp { status := 200, statusText := "OK", body := some resFull })).1 =
      .ok (marketBlock (mkIndexRecord "A" metaFull) ++ "\n\n" ++
        marketBlock (mkIndexRecord "C" metaFull)) ∧
    (fetchMarketData 0 (initRateState 0) ["A", "B", "C"]
      (fun _ => .fail "boom")).1 = .ok unableMarketMsg :=
  ⟨marketBatch_C9.2.1 0 (initRateState 0) "A" "B" "C" _ (mkIndexRecord "A" metaFull)
      (mkIndexRecord "C" metaFull) (by rfl) (by decide) (by decide) (by decide),
   marketBatch_C9.2.2 0 (initRateState 0) ["A", "B", "C"] _ (by rfl)
      (by intro s hs; rfl)⟩

/-- Claim C10: the history pipeline runs `checkRateLimit` before
period/interval validation, so a call that fails on an invalid period has
still consumed one unit of both rate-limit counters (here from an
in-window, under-limit state), and no fetch was performed. -/
theorem historyRateConsumed_C10 (now : Int) (st : RateState) (sym p iv : String)
    (resp : HttpResponse HistoryData) (dateFn : Int → String)
    (h1 : now - st.lastMinuteReset ≤ 60000) (h2 : now - st.lastDayReset ≤ 86400000)
    (h3 : st.minute < 20) (h4 : st.day < 500) (hp : p ∉ validPeriods) :
    exceptOk (fetchStockHistory now st sym p iv resp dateFn).1 = false ∧
    (fetchStockHistory now st sym p iv resp dateFn).2.1 =
      { st with minute := st.minute + 1, day := st.day + 1 } ∧
    (fetchStockHistory now st sym p iv resp dateFn).2.2 = false := by
  have hcrl : checkRateLimit now st =
      (Except.ok (), { st with minute := st.minute + 1, day := st.day + 1 }) := by
    simp [checkRateLimit, RATE_LIMIT,
      show ¬(now - st.lastMinuteReset > 60000) by omega,
      show ¬(now - st.lastDayReset > 86400000) by omega,
      show ¬((20 : Nat) ≤ st.minute) by omega,
      show ¬((500 : Nat) ≤ st.day) by omega]
  refine ⟨?_, ?_, ?_⟩ <;> simp [fetchStockHistory, hcrl, hp, exceptOk]

/-- Witness for C10: the invalid period "1week" from a fresh state still
increments both counters to 1. -/
theorem historyRateConsumed_C10_witness :
    exceptOk (fetchStockHistory 0 (initRateState 0) "AAPL" "1week" "1d"
      { status := 200, statusText := "OK", body := none } (fun _ => "")).1 = false ∧
    (fetchStockHistory 0 (initRateState 0) "AAPL" "1week" "1d"
      { status := 200, statusText := "OK", body := none } (fun _ => "")).2.1 =
      { initRateState 0 with minute := 1, day := 1 } ∧
    (fetchStockHistory 0 (initRateState 0) "AAPL" "1week" "1d"
      { status := 200, statusText := "OK", body := none } (fun _ => "")).2.2 = false :=
  historyRateConsumed_C10 0 (initRateState 0) "AAPL" "1week" "1d"
    { status := 200, statusText := "OK", body := none } (fun _ => "")
    (by decide) (by decide) (by decide) (by decide) (by decide)
